import Mathlib

/-!
Verification of `src/image_classify.py`, a single Streamlit script that
classifies an uploaded image with a pretrained ResNet-50, shows the top-5
probabilities, an Integrated Gradients attribution of the top prediction,
offers a renamed re-encoded download, and persists feedback/comments to
two flat text files.

The embedding is shallow: the external libraries (PIL, torchvision,
captum, the filesystem) enter as an `Env` record of functions; numeric
probability values are modelled as rationals (only their ordering
matters to the script); a single rerun of the script is the function
`runScript`, returning the updated session state and the list of UI /
filesystem effects, or the first uncaught error.
-/

namespace ImageClassify

/-! ## `make_prediction` (src/image_classify.py lines 23-28)

`probs = model(x).softmax(1)[0]` is a vector of scores; the script then
computes `probs.argsort()[-5:][::-1]` (numpy argsort is ascending, the
slice keeps the last five, `[::-1]` reverses) and indexes `probs` with it.
We model the score vector as `List ℚ` and numpy's `argsort` as an
insertion sort of the index list `range n` keyed by the scores. -/

/-- Relation `keyLe v a b` compares indices `a b` by their score in `v`
(out-of-range indices read the default `0`, as they never occur). -/
def keyLe (v : List ℚ) (a b : Nat) : Prop :=
  v.getD a 0 ≤ v.getD b 0

instance (v : List ℚ) : DecidableRel (keyLe v) := fun a b =>
  inferInstanceAs (Decidable (v.getD a 0 ≤ v.getD b 0))

instance (v : List ℚ) : IsTotal Nat (keyLe v) :=
  ⟨fun a b => le_total (v.getD a 0) (v.getD b 0)⟩

instance (v : List ℚ) : IsTrans Nat (keyLe v) :=
  ⟨fun _ _ _ hab hbc => le_trans hab hbc⟩

/-- numpy's `v.argsort()`: the indices `0, ..., n-1` sorted so that the
scores are ascending. -/
def argsort (v : List ℚ) : List Nat :=
  List.insertionSort (keyLe v) (List.range v.length)

/-- Python's `l[-5:]`: the last five elements (all of them when fewer). -/
def lastK (k : Nat) (l : List α) : List α :=
  l.drop (l.length - k)

/-- Computes `probs.argsort()[-5:][::-1]`: indices of the five largest scores,
largest first. -/
def topIdxs (v : List ℚ) : List Nat :=
  (lastK 5 (argsort v)).reverse

/-- Function `make_prediction` (lines 23-28): returns
`(probs[argsort[-5:][::-1]], argsort[-5:][::-1])` computed on the
post-softmax score vector. -/
def makePrediction (v : List ℚ) : List ℚ × List Nat :=
  ((topIdxs v).map (fun i => v.getD i 0), topIdxs v)

/-! ## The script (src/image_classify.py lines 1-133)

One Streamlit rerun of the module-level script.  External libraries and
the filesystem are the `Env`; `st.session_state` is `SessionState`; the
widget values of the rerun are `RunInput`; the visible UI elements and
performed file appends are `Effect`s.  Python exceptions are the
`Except String` error path: the script installs no handler, so the first
error aborts the rerun. -/

/-- Byte strings (file contents) as lists of byte values. -/
abbrev Bytes := List Nat

/-- A decoded PIL image: abstract pixel content plus the PIL-reported
format name (`img.format`, e.g. `"JPEG"`, `"PNG"`). -/
structure Image where
  content : Nat
  format : String
deriving DecidableEq

/-- Opaque handles for the loaded ResNet-50, the preprocessed tensor and
the attribution map. -/
abbrev Model := Nat
abbrev Tensor := Nat
abbrev AttrMap := Nat

/-- The external world: PIL decode/encode, torchvision model and
preprocessing, the ImageNet category names, captum attribution, and the
filesystem append.  Fallible operations return `Except String`. -/
structure Env where
  /-- PIL `Image.open(upload)` -/
  decode : Bytes → Except String Image
  /-- Loader `load_model()` (resnet50 weights download / load) -/
  loadModel : Except String Model
  /-- Transform `preprocess_func(img)` -/
  preprocess : Image → Tensor
  /-- Scores `model(x.unsqueeze(0)).softmax(1)[0]` as a vector -/
  softmaxOut : Model → Tensor → List ℚ
  /-- Array `categories` from the torchvision weights metadata -/
  categories : List String
  /-- Captum `IntegratedGradients(model).attribute(x.unsqueeze(0), target)` -/
  igAttr : Model → Tensor → Nat → AttrMap
  /-- PIL `img.save(buf, format=...)` then `buf.getvalue()` -/
  encode : Image → String → Bytes
  /-- Filesystem `open(path, "a").write(line)` -/
  fsAppend : String → String → Except String Unit

/-- Session `st.session_state` keys the script reads or writes. -/
structure SessionState where
  img : Option Image
  probs : Option (List ℚ)
  idxs : Option (List Nat)
  feature_imp : Option AttrMap
  new_filename : Option String
  img_byte_arr : Option Bytes
deriving DecidableEq

/-- The widget values for one rerun. -/
structure RunInput where
  /-- Radio `st.sidebar.radio("Go to", ["Image Classifier", "Connect to Us"])` -/
  page : String
  /-- Uploader `st.file_uploader(...)`: the uploaded file's bytes, if any -/
  upload : Option Bytes
  /-- Button `st.button("👍 Like")` -/
  likeClicked : Bool
  /-- Button `st.button("👎 Dislike")` -/
  dislikeClicked : Bool
  /-- Button `st.button("Submit Comment")` -/
  submitClicked : Bool
  /-- Box `st.text_area("Leave your comment here:")` -/
  comment : String
  /-- the rendering of `datetime.now()` during this rerun -/
  now : String
deriving DecidableEq

/-- Observable actions of one rerun, in program order. -/
inductive Effect where
  /-- Title `st.title` -/
  | title (s : String)
  /-- the top-5 horizontal bar chart (`plt.barh` + `st.pyplot`) -/
  | pyplotBar (cats : List String) (widths : List ℚ)
  /-- the uploaded image shown in column 1 -/
  | pyplotImage (img : Image)
  /-- the Integrated Gradients visualization shown in column 2 -/
  | pyplotAttr (fi : AttrMap)
  /-- Download `st.download_button(label, data, file_name, mime)` -/
  | downloadButton (label : String) (data : Bytes) (fileName : String) (mime : String)
  /-- a completed append of `line` to the file at `path` -/
  | appendFile (path : String) (line : String)
  /-- Banner `st.success` -/
  | success (msg : String)
  /-- Prose `st.write` / `st.subheader` -/
  | prose (s : String)
  /-- Button `st.button(label)` rendered -/
  | button (label : String)
  /-- Box `st.text_area(label)` rendered -/
  | textArea (label : String)
deriving DecidableEq

/-- Lines 53-104: the classifier page body once `img` is in hand.
`sImg` is the session state after the `st.session_state.img` update.
An `Except.error` of a called library function is Python's uncaught
exception: it aborts the rest of the rerun. -/
def classifierBody (env : Env) (sImg : SessionState) (img : Image) :
    Except String (SessionState × List Effect) :=
  let fmt := img.format.toLower
  match env.loadModel with
  | Except.error e => Except.error e
  | Except.ok model =>
    let t := env.preprocess img
    let pr := makePrediction (env.softmaxOut model t)
    let probs := pr.1
    let idxs := pr.2
    -- `idxs[0]`; totalised with `headD` (idxs is nonempty whenever the
    -- score vector is, and ResNet-50 emits 1000 scores)
    let fi := env.igAttr model t (idxs.headD 0)
    let top_category := env.categories.getD (idxs.headD 0) ""
    let new_filename := top_category ++ "." ++ fmt
    let img_byte_arr := env.encode img fmt.toUpper
    Except.ok
      (SessionState.mk sImg.img (some probs) (some idxs) (some fi)
        (some new_filename) (some img_byte_arr),
       [Effect.pyplotBar ((idxs.map (fun i => env.categories.getD i "")).reverse)
          probs.reverse,
        Effect.pyplotImage img,
        Effect.pyplotAttr fi,
        Effect.downloadButton "Download Renamed Image" img_byte_arr new_filename
          ("image/" ++ fmt)])

/-- Lines 41-104: the "Image Classifier" page.  `if upload or "img" in
st.session_state:` then either decode the fresh upload (storing it in
the session) or reuse the stored image. -/
def classifierPage (env : Env) (s : SessionState) (inp : RunInput) :
    Except String (SessionState × List Effect) :=
  let core :=
    match inp.upload with
    | some b =>
      match env.decode b with
      | Except.error e => Except.error e
      | Except.ok img =>
        classifierBody env
          (SessionState.mk (some img) s.probs s.idxs s.feature_imp
            s.new_filename s.img_byte_arr) img
    | none =>
      match s.img with
      | some img => classifierBody env s img
      | none => Except.ok (s, [])
  match core with
  | Except.error e => Except.error e
  | Except.ok r =>
    Except.ok (r.1, Effect.title "ResNet-50 Image Classifier" :: r.2)

/-- Lines 117-126: one feedback button: `if st.button(label):` renders
the button and, when it reports a click, appends to `feedback.txt` and
shows `st.success`. -/
def feedbackStep (env : Env) (clicked : Bool) (label : String) (line : String) :
    Except String (List Effect) :=
  if clicked then
    match env.fsAppend "feedback.txt" line with
    | Except.error e => Except.error e
    | Except.ok _ =>
      Except.ok [Effect.button label,
                 Effect.appendFile "feedback.txt" line,
                 Effect.success "Thank you for your feedback!"]
  else Except.ok [Effect.button label]

/-- Lines 113-126: the feedback section.  The Like/Dislike buttons exist
only under `if "new_filename" in st.session_state:`. -/
def feedbackSection (env : Env) (s : SessionState) (inp : RunInput) :
    Except String (List Effect) :=
  match s.new_filename with
  | some nf =>
    match feedbackStep env inp.likeClicked "👍 Like"
        ("Like for " ++ nf ++ "\n") with
    | Except.error e => Except.error e
    | Except.ok a =>
      match feedbackStep env inp.dislikeClicked "👎 Dislike"
          ("Dislike for " ++ nf ++ "\n") with
      | Except.error e => Except.error e
      | Except.ok b => Except.ok (a ++ b)
  | none => Except.ok []

/-- Lines 129-133: the comment box and Submit button. -/
def commentStep (env : Env) (inp : RunInput) : Except String (List Effect) :=
  if inp.submitClicked then
    match env.fsAppend "user_comments.txt"
        (inp.now ++ ": " ++ inp.comment ++ "\n") with
    | Except.error e => Except.error e
    | Except.ok _ =>
      Except.ok [Effect.button "Submit Comment",
                 Effect.appendFile "user_comments.txt"
                   (inp.now ++ ": " ++ inp.comment ++ "\n"),
                 Effect.success "Thank you for your comment!"]
  else Except.ok [Effect.button "Submit Comment"]

/-- Lines 106-133: the "Connect to Us" page. -/
def connectPage (env : Env) (s : SessionState) (inp : RunInput) :
    Except String (SessionState × List Effect) :=
  match feedbackSection env s inp with
  | Except.error e => Except.error e
  | Except.ok fb =>
    match commentStep env inp with
    | Except.error e => Except.error e
    | Except.ok cm =>
      Except.ok (s,
        Effect.title "Connect to Us" ::
        Effect.prose "We\x27d love to hear from you!" ::
        Effect.prose "Feedback" ::
        Effect.prose "Did you find the output useful?" ::
        (fb ++ (Effect.textArea "Leave your comment here:" :: cm)))

/-- One rerun of the whole script (lines 38-133): the sidebar radio
selects the page. -/
def runScript (env : Env) (s : SessionState) (inp : RunInput) :
    Except String (SessionState × List Effect) :=
  if inp.page = "Image Classifier" then classifierPage env s inp
  else if inp.page = "Connect to Us" then connectPage env s inp
  else Except.ok (s, [])

/-- The effects of a rerun (empty when the rerun aborted with an
exception). -/
def runEffects (env : Env) (s : SessionState) (inp : RunInput) : List Effect :=
  match runScript env s inp with
  | Except.ok r => r.2
  | Except.error _ => []

/-- Line 44: the `type=` filter of `st.file_uploader`. -/
def uploaderTypes : List String := ["png", "jpg", "jpeg"]

/-- The uploader accepts a file exactly when its extension is listed. -/
def uploaderAccepts (ext : String) : Bool := uploaderTypes.contains ext

/-! ## Observation helpers -/

/-- Test `prefB pat l`: `pat` is a prefix of `l`. -/
def prefB [DecidableEq α] : List α → List α → Bool
  | [], _ => true
  | _ :: _, [] => false
  | a :: as, b :: bs => decide (a = b) && prefB as bs

/-- Test `subB pat l`: `pat` occurs contiguously inside `l`. -/
def subB [DecidableEq α] (pat : List α) : List α → Bool
  | [] => prefB pat []
  | b :: bs => prefB pat (b :: bs) || subB pat bs

/-- Test whether `pat` occurs as a substring of `hay`. -/
def strContainsB (hay pat : String) : Bool := subB pat.data hay.data

/-- The string mentions at least one decimal digit (any textual
timestamp does). -/
def hasDigit (s : String) : Bool := s.data.any (fun c => c.isDigit)

/-- Effects only the "Image Classifier" page produces: plots and the
download button. -/
def isClassifierEffect : Effect → Bool
  | Effect.pyplotBar _ _ => true
  | Effect.pyplotImage _ => true
  | Effect.pyplotAttr _ => true
  | Effect.downloadButton _ _ _ _ => true
  | _ => false

/-- A completed file append. -/
def isFileWrite : Effect → Bool
  | Effect.appendFile _ _ => true
  | _ => false

/-- The lines appended to the file at `path` during a run, in order. -/
def appendedTo (path : String) (effs : List Effect) : List String :=
  effs.filterMap (fun e =>
    match e with
    | Effect.appendFile p l => if p = path then some l else none
    | _ => none)

/-- Number of newline characters (= number of complete lines a
newline-terminated write contributes to a line-oriented file). -/
def newlineCount (s : String) : Nat := s.data.count (Char.ofNat 10)

/-- Total number of lines a run appends to the file at `path`. -/
def linesAppendedTo (path : String) (effs : List Effect) : Nat :=
  ((appendedTo path effs).map newlineCount).sum

/-- The data payloads of the download buttons a run offers. -/
def downloadDatas (effs : List Effect) : List Bytes :=
  effs.filterMap (fun e =>
    match e with
    | Effect.downloadButton _ d _ _ => some d
    | _ => none)

/-! ## Concrete instances used by witnesses and counterexamples -/

/-- A small fully concrete environment: decoding always yields a JPEG
image with content `7`; six categories; six scores with the maximum at
index `2`; encoding emits `[content, (format name).length]`. -/
def envEx : Env :=
  Env.mk
    (fun _ => Except.ok (Image.mk 7 "JPEG"))
    (Except.ok 0)
    (fun _ => 0)
    (fun _ _ => [3, 1, 4, 0, 1, 2])
    ["cat", "dog", "fox", "owl", "elk", "bee"]
    (fun _ t i => 100 + t + i)
    (fun i _ => [i.content, 4])
    (fun _ _ => Except.ok ())

/-- An environment whose image decoding fails. -/
def envBadDecode : Env :=
  Env.mk
    (fun _ => Except.error "bad image")
    (Except.ok 0)
    (fun _ => 0)
    (fun _ _ => [3, 1, 4, 0, 1, 2])
    ["cat", "dog", "fox", "owl", "elk", "bee"]
    (fun _ t i => 100 + t + i)
    (fun i _ => [i.content, 4])
    (fun _ _ => Except.ok ())

/-- An environment whose model loading fails. -/
def envBadModel : Env :=
  Env.mk
    (fun _ => Except.ok (Image.mk 7 "JPEG"))
    (Except.error "model load failed")
    (fun _ => 0)
    (fun _ _ => [3, 1, 4, 0, 1, 2])
    ["cat", "dog", "fox", "owl", "elk", "bee"]
    (fun _ t i => 100 + t + i)
    (fun i _ => [i.content, 4])
    (fun _ _ => Except.ok ())

/-- An environment whose file appends fail. -/
def envBadWrite : Env :=
  Env.mk
    (fun _ => Except.ok (Image.mk 7 "JPEG"))
    (Except.ok 0)
    (fun _ => 0)
    (fun _ _ => [3, 1, 4, 0, 1, 2])
    ["cat", "dog", "fox", "owl", "elk", "bee"]
    (fun _ t i => 100 + t + i)
    (fun i _ => [i.content, 4])
    (fun _ _ => Except.error "disk full")

/-- Empty session state. -/
def sEx : SessionState := SessionState.mk none none none none none none

/-- Session state after a classification produced `goldfish.jpeg`. -/
def sClassified : SessionState :=
  SessionState.mk none none none none (some "goldfish.jpeg") none

/-- A classifier rerun with a fresh upload. -/
def inpUpload : RunInput :=
  RunInput.mk "Image Classifier" (some [9, 9]) false false false ""
    "2025-10-12 09:00:00"

/-- A "Connect to Us" rerun clicking Like. -/
def inpLike : RunInput :=
  RunInput.mk "Connect to Us" none true false false ""
    "2025-10-12 09:00:00"

/-- A "Connect to Us" rerun submitting the comment `"hi"`. -/
def inpComment : RunInput :=
  RunInput.mk "Connect to Us" none false false true "hi"
    "2025-10-12 09:00:00"

/-- A "Connect to Us" rerun submitting a comment that itself contains a
newline. -/
def inpMultiline : RunInput :=
  RunInput.mk "Connect to Us" none false false true
    ("a" ++ String.singleton (Char.ofNat 10) ++ "b") "2025-10-12 09:00:00"

/-- A "Connect to Us" rerun submitting an empty comment. -/
def inpEmptyComment : RunInput :=
  RunInput.mk "Connect to Us" none false false true "" "2025-10-12 09:00:00"

/-- Score vector used by witnesses: six scores with maximum at index 2. -/
def vW : List ℚ := [3, 1, 4, 0, 1, 2]

/-! ## Properties of the embedding -/

theorem argsort_perm (v : List ℚ) : (argsort v).Perm (List.range v.length) :=
  List.perm_insertionSort _ _

theorem argsort_sorted (v : List ℚ) : (argsort v).Pairwise (keyLe v) :=
  List.sorted_insertionSort _ _

theorem argsort_length (v : List ℚ) : (argsort v).length = v.length := by
  simpa using (argsort_perm v).length_eq

theorem mem_argsort {v : List ℚ} {i : Nat} : i ∈ argsort v ↔ i < v.length := by
  rw [(argsort_perm v).mem_iff, List.mem_range]

theorem topIdxs_length (v : List ℚ) (h : 5 ≤ v.length) :
    (topIdxs v).length = 5 := by
  simp [topIdxs, lastK, argsort_length]
  omega

theorem mem_topIdxs {v : List ℚ} {i : Nat} (h : i ∈ topIdxs v) :
    i < v.length := by
  rw [topIdxs, List.mem_reverse] at h
  exact mem_argsort.mp (List.drop_subset _ _ h)

/-- The five kept indices dominate the dropped ones: the sorted index
list splits as `take (n-5) ++ drop (n-5)` and `Pairwise` relates the two
sides. -/
theorem topIdxs_dominate {v : List ℚ} {j : Nat} (hj : j < v.length)
    (hnot : j ∉ topIdxs v) {i : Nat} (hi : i ∈ topIdxs v) :
    v.getD j 0 ≤ v.getD i 0 := by
  have hsplit : List.take (v.length - 5) (argsort v) ++
      List.drop (v.length - 5) (argsort v) = argsort v :=
    List.take_append_drop _ _
  have hpw : (List.take (v.length - 5) (argsort v) ++
      List.drop (v.length - 5) (argsort v)).Pairwise (keyLe v) := by
    rw [hsplit]; exact argsort_sorted v
  have hcross := (List.pairwise_append.mp hpw).2.2
  have hjmem : j ∈ argsort v := mem_argsort.mpr hj
  have hjtake : j ∈ List.take (v.length - 5) (argsort v) := by
    rcases (List.mem_append.mp (hsplit ▸ hjmem)) with h | h
    · exact h
    · exact absurd (by rw [topIdxs, lastK, argsort_length, List.mem_reverse]; exact h) hnot
  have hidrop : i ∈ List.drop (v.length - 5) (argsort v) := by
    rw [topIdxs, lastK, argsort_length, List.mem_reverse] at hi
    exact hi
  exact hcross j hjtake i hidrop

/-- The returned probabilities are sorted in descending order. -/
theorem makePrediction_probs_sorted (v : List ℚ) :
    (makePrediction v).1.Pairwise (fun p q => q ≤ p) := by
  have hdrop : (List.drop (v.length - 5) (argsort v)).Pairwise (keyLe v) :=
    (argsort_sorted v).sublist (List.drop_sublist _ _)
  have hrev : (topIdxs v).Pairwise (fun a b => keyLe v b a) := by
    rw [topIdxs, lastK, argsort_length, List.pairwise_reverse]
    exact hdrop
  rw [makePrediction, List.pairwise_map]
  exact hrev.imp (fun h => h)

/-- The i-th returned probability is the score at the i-th returned index. -/
theorem makePrediction_pairing (v : List ℚ) (i : Nat)
    (h1 : i < (makePrediction v).1.length) (h2 : i < (makePrediction v).2.length) :
    (makePrediction v).1.get ⟨i, h1⟩ =
      v.getD ((makePrediction v).2.get ⟨i, h2⟩) 0 := by
  simp [makePrediction]

theorem makePrediction_probs_length (v : List ℚ) (h : 5 ≤ v.length) :
    (makePrediction v).1.length = 5 := by
  simp [makePrediction, topIdxs_length v h]

theorem makePrediction_idxs_length (v : List ℚ) (h : 5 ≤ v.length) :
    (makePrediction v).2.length = 5 := by
  simp [makePrediction, topIdxs_length v h]

/-- Any score outside the selected five is at most every returned
probability. -/
theorem makePrediction_top5 {v : List ℚ} {j : Nat} (hj : j < v.length)
    (hnot : j ∉ (makePrediction v).2) {p : ℚ} (hp : p ∈ (makePrediction v).1) :
    v.getD j 0 ≤ p := by
  rw [makePrediction, List.mem_map] at hp
  obtain ⟨i, hi, rfl⟩ := hp
  exact topIdxs_dominate hj hnot hi

/-- In a descending-sorted list the head dominates every element. -/
theorem head_dominates {l : List ℚ} (hs : l.Pairwise (fun p q => q ≤ p))
    {p : ℚ} (hp : p ∈ l) : p ≤ l.headD 0 := by
  cases l with
  | nil => cases hp
  | cons a t =>
    rcases List.mem_cons.mp hp with rfl | hmem
    · simp
    · simpa using (List.pairwise_cons.mp hs).1 p hmem

/-- The first returned index is a global argmax of the score vector. -/
theorem topIdxs_head_argmax {v : List ℚ} (h5 : 5 ≤ v.length)
    {j : Nat} (hj : j < v.length) :
    v.getD j 0 ≤ v.getD ((topIdxs v).headD 0) 0 := by
  have hne : topIdxs v ≠ [] := by
    have := topIdxs_length v h5
    intro hnil; rw [hnil] at this; simp at this
  have hhead : (topIdxs v).headD 0 ∈ topIdxs v := by
    cases htop : topIdxs v with
    | nil => exact absurd htop hne
    | cons a t => simp
  have hheadprob : v.getD ((topIdxs v).headD 0) 0 ∈ (makePrediction v).1 := by
    rw [makePrediction, List.mem_map]
    exact ⟨(topIdxs v).headD 0, hhead, rfl⟩
  by_cases hmem : j ∈ topIdxs v
  · -- j is among the selected: its probability appears in the list,
    -- whose head is the probability at the head index and dominates.
    have hjprob : v.getD j 0 ∈ (makePrediction v).1 := by
      rw [makePrediction, List.mem_map]; exact ⟨j, hmem, rfl⟩
    have hd := head_dominates (makePrediction_probs_sorted v) hjprob
    have hhd : (makePrediction v).1.headD 0 = v.getD ((topIdxs v).headD 0) 0 := by
      cases htop : topIdxs v with
      | nil => exact absurd htop hne
      | cons a t => simp [makePrediction, htop]
    rwa [hhd] at hd
  · exact makePrediction_top5 hj (by rwa [makePrediction]) hheadprob

/-- A prefix of a list is a prefix of any extension. -/
theorem prefB_append [DecidableEq α] (l t : List α) :
    prefB l (l ++ t) = true := by
  induction l with
  | nil => rfl
  | cons a as ih => simp [prefB, ih]

/-- A prefix occurrence is in particular a substring occurrence. -/
theorem subB_of_prefB [DecidableEq α] {pat l : List α}
    (h : prefB pat l = true) : subB pat l = true := by
  cases l with
  | nil => simpa [subB] using h
  | cons b bs => simp [subB, h]

/-- A string contains each of its own prefixes. -/
theorem strContainsB_left (a r : String) : strContainsB (a ++ r) a = true := by
  unfold strContainsB
  rw [String.data_append]
  exact subB_of_prefB (prefB_append _ _)

/-- Newline counting distributes over append. -/
theorem newlineCount_append (a b : String) :
    newlineCount (a ++ b) = newlineCount a + newlineCount b := by
  simp [newlineCount, String.data_append, List.count_append]

/-- Everything the body of the classifier page shows is a plot or the
download button. -/
theorem classifierBody_mem {env : Env} {sImg : SessionState} {img : Image}
    {r : SessionState × List Effect}
    (h : classifierBody env sImg img = Except.ok r) :
    ∀ ef ∈ r.2, isClassifierEffect ef = true := by
  cases hm : env.loadModel with
  | error e => simp [classifierBody, hm] at h
  | ok m =>
    simp only [classifierBody, hm, Except.ok.injEq] at h
    subst h
    intro ef hef
    simp only [List.mem_cons, List.not_mem_nil, or_false] at hef
    rcases hef with rfl | rfl | rfl | rfl <;> rfl

/-- Everything the classifier page shows is its title, a plot, or the
download button; in particular it performs no file append and renders no
button. -/
theorem classifierPage_mem {env : Env} {s : SessionState} {inp : RunInput}
    {r : SessionState × List Effect}
    (h : classifierPage env s inp = Except.ok r) :
    ∀ ef ∈ r.2,
      ef = Effect.title "ResNet-50 Image Classifier" ∨
      isClassifierEffect ef = true := by
  have hcore : ∀ r0 : SessionState × List Effect,
      (match inp.upload with
       | some b =>
         match env.decode b with
         | Except.error e => Except.error e
         | Except.ok img =>
           classifierBody env
             (SessionState.mk (some img) s.probs s.idxs s.feature_imp
               s.new_filename s.img_byte_arr) img
       | none =>
         match s.img with
         | some img => classifierBody env s img
         | none => Except.ok (s, [])) = Except.ok r0 →
      ∀ ef ∈ r0.2, isClassifierEffect ef = true := by
    intro r0 hr0 ef hef
    split at hr0
    · split at hr0
      · cases hr0
      · exact classifierBody_mem hr0 ef hef
    · split at hr0
      · exact classifierBody_mem hr0 ef hef
      · simp only [Except.ok.injEq] at hr0
        subst hr0
        cases hef
  rw [classifierPage] at h
  cases hc : (match inp.upload with
       | some b =>
         match env.decode b with
         | Except.error e => Except.error e
         | Except.ok img =>
           classifierBody env
             (SessionState.mk (some img) s.probs s.idxs s.feature_imp
               s.new_filename s.img_byte_arr) img
       | none =>
         match s.img with
         | some img => classifierBody env s img
         | none => Except.ok (s, [])) with
  | error e => rw [hc] at h; cases h
  | ok r0 =>
    rw [hc] at h
    simp only [Except.ok.injEq] at h
    subst h
    intro ef hef
    rcases List.mem_cons.mp hef with rfl | hef
    · exact Or.inl rfl
    · exact Or.inr (hcore r0 hc ef hef)

/-- What one feedback button step can show. -/
theorem feedbackStep_mem {env : Env} {c : Bool} {label line : String}
    {effs : List Effect} (h : feedbackStep env c label line = Except.ok effs) :
    ∀ ef ∈ effs,
      ef = Effect.button label ∨
      (c = true ∧ ef = Effect.appendFile "feedback.txt" line) ∨
      ef = Effect.success "Thank you for your feedback!" := by
  cases c with
  | false =>
    simp only [feedbackStep, Bool.false_eq_true, if_false, Except.ok.injEq] at h
    subst h
    intro ef hef
    simp only [List.mem_singleton] at hef
    exact Or.inl hef
  | true =>
    simp only [feedbackStep, if_true] at h
    cases hw : env.fsAppend "feedback.txt" line with
    | error e => rw [hw] at h; cases h
    | ok u =>
      rw [hw] at h
      simp only [Except.ok.injEq] at h
      subst h
      intro ef hef
      simp only [List.mem_cons, List.not_mem_nil, or_false] at hef
      rcases hef with rfl | rfl | rfl
      · exact Or.inl rfl
      · exact Or.inr (Or.inl ⟨rfl, rfl⟩)
      · exact Or.inr (Or.inr rfl)

/-- What the feedback section can show: nothing without a session
`new_filename`; with one, buttons, thanks, and the clicked appends. -/
theorem feedbackSection_mem {env : Env} {s : SessionState} {inp : RunInput}
    {fb : List Effect} (h : feedbackSection env s inp = Except.ok fb) :
    ∀ ef ∈ fb,
      ∃ nf, s.new_filename = some nf ∧
        (ef = Effect.button "👍 Like" ∨
         ef = Effect.button "👎 Dislike" ∨
         ef = Effect.success "Thank you for your feedback!" ∨
         (inp.likeClicked = true ∧
           ef = Effect.appendFile "feedback.txt" ("Like for " ++ nf ++ "\n")) ∨
         (inp.dislikeClicked = true ∧
           ef = Effect.appendFile "feedback.txt" ("Dislike for " ++ nf ++ "\n"))) := by
  cases hnf : s.new_filename with
  | none =>
    simp only [feedbackSection, hnf, Except.ok.injEq] at h
    subst h
    intro ef hef
    cases hef
  | some nf =>
    simp only [feedbackSection, hnf] at h
    cases ha : feedbackStep env inp.likeClicked "👍 Like"
        ("Like for " ++ nf ++ "\n") with
    | error e => rw [ha] at h; cases h
    | ok a =>
      rw [ha] at h
      cases hb : feedbackStep env inp.dislikeClicked "👎 Dislike"
          ("Dislike for " ++ nf ++ "\n") with
      | error e => rw [hb] at h; cases h
      | ok bb =>
        rw [hb] at h
        simp only [Except.ok.injEq] at h
        subst h
        intro ef hef
        refine ⟨nf, rfl, ?_⟩
        rcases List.mem_append.mp hef with hef | hef
        · rcases feedbackStep_mem ha ef hef with h | ⟨hc, h⟩ | h
          · exact Or.inl h
          · exact Or.inr (Or.inr (Or.inr (Or.inl ⟨hc, h⟩)))
          · exact Or.inr (Or.inr (Or.inl h))
        · rcases feedbackStep_mem hb ef hef with h | ⟨hc, h⟩ | h
          · exact Or.inr (Or.inl h)
          · exact Or.inr (Or.inr (Or.inr (Or.inr ⟨hc, h⟩)))
          · exact Or.inr (Or.inr (Or.inl h))

/-- What the comment section can show. -/
theorem commentStep_mem {env : Env} {inp : RunInput} {cm : List Effect}
    (h : commentStep env inp = Except.ok cm) :
    ∀ ef ∈ cm,
      ef = Effect.button "Submit Comment" ∨
      ef = Effect.success "Thank you for your comment!" ∨
      (inp.submitClicked = true ∧
        ef = Effect.appendFile "user_comments.txt"
          (inp.now ++ ": " ++ inp.comment ++ "\n")) := by
  cases hsc : inp.submitClicked with
  | false =>
    simp only [commentStep, hsc, Bool.false_eq_true, if_false,
      Except.ok.injEq] at h
    subst h
    intro ef hef
    simp only [List.mem_singleton] at hef
    exact Or.inl hef
  | true =>
    simp only [commentStep, hsc, if_true] at h
    cases hw : env.fsAppend "user_comments.txt"
        (inp.now ++ ": " ++ inp.comment ++ "\n") with
    | error e => rw [hw] at h; cases h
    | ok u =>
      rw [hw] at h
      simp only [Except.ok.injEq] at h
      subst h
      intro ef hef
      simp only [List.mem_cons, List.not_mem_nil, or_false] at hef
      rcases hef with rfl | rfl | rfl
      · exact Or.inl rfl
      · exact Or.inr (Or.inr ⟨rfl, rfl⟩)
      · exact Or.inr (Or.inl rfl)

/-- Everything the "Connect to Us" page can show: static prose and
widgets, plus — only when `new_filename` is in the session — the two
feedback buttons and their `feedback.txt` appends, plus — only when
Submit was clicked — the single `user_comments.txt` append. -/
theorem connectPage_mem {env : Env} {s : SessionState} {inp : RunInput}
    {r : SessionState × List Effect}
    (h : connectPage env s inp = Except.ok r) :
    ∀ ef ∈ r.2,
      ef = Effect.title "Connect to Us" ∨
      ef = Effect.prose "We\x27d love to hear from you!" ∨
      ef = Effect.prose "Feedback" ∨
      ef = Effect.prose "Did you find the output useful?" ∨
      ef = Effect.textArea "Leave your comment here:" ∨
      ef = Effect.button "Submit Comment" ∨
      ef = Effect.success "Thank you for your comment!" ∨
      (inp.submitClicked = true ∧
        ef = Effect.appendFile "user_comments.txt"
          (inp.now ++ ": " ++ inp.comment ++ "\n")) ∨
      (∃ nf, s.new_filename = some nf ∧
        (ef = Effect.button "👍 Like" ∨
         ef = Effect.button "👎 Dislike" ∨
         ef = Effect.success "Thank you for your feedback!" ∨
         (inp.likeClicked = true ∧
           ef = Effect.appendFile "feedback.txt" ("Like for " ++ nf ++ "\n")) ∨
         (inp.dislikeClicked = true ∧
           ef = Effect.appendFile "feedback.txt" ("Dislike for " ++ nf ++ "\n")))) := by
  rw [connectPage] at h
  cases hfb : feedbackSection env s inp with
  | error e => rw [hfb] at h; cases h
  | ok fb =>
    rw [hfb] at h
    cases hcm : commentStep env inp with
    | error e => rw [hcm] at h; cases h
    | ok cm =>
      rw [hcm] at h
      simp only [Except.ok.injEq] at h
      subst h
      intro ef hef
      rcases List.mem_cons.mp hef with rfl | hef
      · tauto
      rcases List.mem_cons.mp hef with rfl | hef
      · tauto
      rcases List.mem_cons.mp hef with rfl | hef
      · tauto
      rcases List.mem_cons.mp hef with rfl | hef
      · tauto
      rcases List.mem_append.mp hef with hef | hef
      · exact Or.inr (Or.inr (Or.inr (Or.inr (Or.inr (Or.inr (Or.inr (Or.inr
          (feedbackSection_mem hfb ef hef))))))))
      rcases List.mem_cons.mp hef with rfl | hef
      · tauto
      · rcases commentStep_mem hcm ef hef with h | h | h <;> tauto

/-! ## Claims -/

/-- Claim C1: `make_prediction` returns the five highest softmax outputs
as a probability vector sorted in descending order, paired with the
indices of those five categories, so that the i-th returned probability
is the softmax value at the i-th returned index. -/
theorem C1_make_prediction_top5 (v : List ℚ) (h5 : 5 ≤ v.length) :
    (makePrediction v).1.length = 5 ∧
    (makePrediction v).2.length = 5 ∧
    (makePrediction v).1.Pairwise (fun p q => q ≤ p) ∧
    (∀ i (h1 : i < (makePrediction v).1.length) (h2 : i < (makePrediction v).2.length),
      (makePrediction v).1.get ⟨i, h1⟩ =
        v.getD ((makePrediction v).2.get ⟨i, h2⟩) 0) ∧
    (∀ j, j < v.length → j ∉ (makePrediction v).2 →
      ∀ p ∈ (makePrediction v).1, v.getD j 0 ≤ p) :=
  ⟨makePrediction_probs_length v h5,
   makePrediction_idxs_length v h5,
   makePrediction_probs_sorted v,
   makePrediction_pairing v,
   fun _ hj hnot _ hp => makePrediction_top5 hj hnot hp⟩


theorem C1_make_prediction_top5_witness :
    5 ≤ vW.length ∧
    ((makePrediction vW).1.length = 5 ∧
     (makePrediction vW).2.length = 5 ∧
     (makePrediction vW).1.Pairwise (fun p q => q ≤ p) ∧
     (∀ i (h1 : i < (makePrediction vW).1.length) (h2 : i < (makePrediction vW).2.length),
       (makePrediction vW).1.get ⟨i, h1⟩ =
         vW.getD ((makePrediction vW).2.get ⟨i, h2⟩) 0) ∧
     (∀ j, j < vW.length → j ∉ (makePrediction vW).2 →
       ∀ p ∈ (makePrediction vW).1, vW.getD j 0 ≤ p)) :=
  ⟨by decide, C1_make_prediction_top5 vW (by decide)⟩

/-- Claim C5: No operation catches or recovers from failures: a failing
image decode, model load, or file write makes the whole rerun end with
exactly that error, with no retry or alternative path. -/
theorem C5_uncaught_errors :
    (∀ (env : Env) (s : SessionState) (inp : RunInput) (b : Bytes) (e : String),
      inp.page = "Image Classifier" → inp.upload = some b →
      env.decode b = Except.error e → runScript env s inp = Except.error e) ∧
    (∀ (env : Env) (s : SessionState) (inp : RunInput) (b : Bytes) (img : Image)
        (e : String),
      inp.page = "Image Classifier" → inp.upload = some b →
      env.decode b = Except.ok img → env.loadModel = Except.error e →
      runScript env s inp = Except.error e) ∧
    (∀ (env : Env) (s : SessionState) (inp : RunInput) (nf : String) (e : String),
      inp.page = "Connect to Us" → s.new_filename = some nf →
      inp.likeClicked = true →
      env.fsAppend "feedback.txt" ("Like for " ++ nf ++ "\n") = Except.error e →
      runScript env s inp = Except.error e) := by
  refine ⟨?_, ?_, ?_⟩
  · intro env s inp b e hpage hup hdec
    simp [runScript, classifierPage, hpage, hup, hdec]
  · intro env s inp b img e hpage hup hdec hm
    simp [runScript, classifierPage, classifierBody, hpage, hup, hdec, hm]
  · intro env s inp nf e hpage hnf hlike hw
    have hne : ¬(inp.page = "Image Classifier") := by rw [hpage]; decide
    simp [runScript, connectPage, feedbackSection, feedbackStep, commentStep,
      hne, hpage, hnf, hlike, hw]

theorem C5_uncaught_errors_witness :
    runScript envBadDecode sEx inpUpload = Except.error "bad image" ∧
    runScript envBadModel sEx inpUpload = Except.error "model load failed" ∧
    runScript envBadWrite sClassified inpLike = Except.error "disk full" :=
  ⟨C5_uncaught_errors.1 envBadDecode sEx inpUpload [9, 9] "bad image" rfl rfl rfl,
   C5_uncaught_errors.2.1 envBadModel sEx inpUpload [9, 9] (Image.mk 7 "JPEG")
     "model load failed" rfl rfl rfl rfl,
   C5_uncaught_errors.2.2 envBadWrite sClassified inpLike "goldfish.jpeg"
     "disk full" rfl rfl rfl rfl⟩

/-- Claim C7: The uploader accepts exactly the three file types
`png`, `jpg`, `jpeg`. -/
theorem C7_uploader_types (e : String) :
    uploaderAccepts e = true ↔ (e = "png" ∨ e = "jpg" ∨ e = "jpeg") := by
  simp [uploaderAccepts, uploaderTypes]

theorem C7_uploader_types_witness :
    uploaderAccepts "png" = true :=
  (C7_uploader_types "png").mpr (Or.inl rfl)

/-- Claim C2: A classified upload is offered for download under the name
`<predicted-category>.<ext>`, where the category is that of the first
(top-1) returned prediction and `ext` is the image's own (PIL-reported)
format lowercased, and the data is the image re-encoded in that same
format (the format name upper-cased again for the encoder). -/
theorem C2_download_renamed (env : Env) (s : SessionState) (inp : RunInput)
    (b : Bytes) (img : Image) (m : Model)
    (hpage : inp.page = "Image Classifier")
    (hup : inp.upload = some b)
    (hdec : env.decode b = Except.ok img)
    (hm : env.loadModel = Except.ok m) :
    Effect.downloadButton "Download Renamed Image"
      (env.encode img img.format.toLower.toUpper)
      (env.categories.getD
         ((makePrediction (env.softmaxOut m (env.preprocess img))).2.headD 0) ""
        ++ "." ++ img.format.toLower)
      ("image/" ++ img.format.toLower) ∈ runEffects env s inp := by
  simp [runEffects, runScript, classifierPage, classifierBody, hpage, hup,
    hdec, hm]

theorem C2_download_renamed_witness :
    Effect.downloadButton "Download Renamed Image"
      (envEx.encode (Image.mk 7 "JPEG") ((Image.mk 7 "JPEG").format.toLower.toUpper))
      (envEx.categories.getD
         ((makePrediction (envEx.softmaxOut 0
            (envEx.preprocess (Image.mk 7 "JPEG")))).2.headD 0) ""
        ++ "." ++ (Image.mk 7 "JPEG").format.toLower)
      ("image/" ++ (Image.mk 7 "JPEG").format.toLower)
      ∈ runEffects envEx sEx inpUpload :=
  C2_download_renamed envEx sEx inpUpload [9, 9] (Image.mk 7 "JPEG") 0
    rfl rfl rfl rfl

/-- Claim C4, amended: The download offered for a classified upload is
the decoded image re-encoded in its own format — not the original byte
string: the bytes agree only when the codec's decode-then-encode
round-trip happens to reproduce them, which the script does not
enforce. -/
theorem C4_download_is_reencoding (env : Env) (s : SessionState)
    (inp : RunInput) (b : Bytes) (img : Image) (m : Model)
    (hpage : inp.page = "Image Classifier")
    (hup : inp.upload = some b)
    (hdec : env.decode b = Except.ok img)
    (hm : env.loadModel = Except.ok m) :
    downloadDatas (runEffects env s inp) =
      [env.encode img img.format.toLower.toUpper] := by
  simp [runEffects, runScript, classifierPage, classifierBody, hpage, hup,
    hdec, hm, downloadDatas]

theorem C4_download_is_reencoding_witness :
    downloadDatas (runEffects envEx sEx inpUpload) =
      [envEx.encode (Image.mk 7 "JPEG")
        ((Image.mk 7 "JPEG").format.toLower.toUpper)] :=
  C4_download_is_reencoding envEx sEx inpUpload [9, 9] (Image.mk 7 "JPEG") 0
    rfl rfl rfl rfl

/-- Claim C4, counterexample: A valid JPEG upload (`[9, 9]`, which the
environment decodes successfully as a JPEG) is offered for download
with byte content `[7, 4]`, which differs from the uploaded bytes: the
round-trip does not preserve the byte content. -/
theorem C4_counterexample :
    inpUpload.upload = some [9, 9] ∧
    envEx.decode [9, 9] = Except.ok (Image.mk 7 "JPEG") ∧
    downloadDatas (runEffects envEx sEx inpUpload) = [[7, 4]] ∧
    ([[7, 4]] : List Bytes) ≠ [[9, 9]] :=
  ⟨rfl, rfl, by decide, by decide⟩

/-- Claim C6: Integrated Gradients attribution is always computed with
target `idxs[0]`, the first index returned by `make_prediction`, which
carries the highest probability of the whole score vector. -/
theorem C6_attribution_target (env : Env) (s : SessionState) (inp : RunInput)
    (b : Bytes) (img : Image) (m : Model)
    (hpage : inp.page = "Image Classifier")
    (hup : inp.upload = some b)
    (hdec : env.decode b = Except.ok img)
    (hm : env.loadModel = Except.ok m)
    (h5 : 5 ≤ (env.softmaxOut m (env.preprocess img)).length) :
    Effect.pyplotAttr
      (env.igAttr m (env.preprocess img)
        ((makePrediction (env.softmaxOut m (env.preprocess img))).2.headD 0))
      ∈ runEffects env s inp ∧
    (∀ j, j < (env.softmaxOut m (env.preprocess img)).length →
      (env.softmaxOut m (env.preprocess img)).getD j 0 ≤
        (env.softmaxOut m (env.preprocess img)).getD
          ((makePrediction (env.softmaxOut m (env.preprocess img))).2.headD 0) 0) := by
  constructor
  · simp [runEffects, runScript, classifierPage, classifierBody, hpage, hup,
      hdec, hm]
  · intro j hj
    exact topIdxs_head_argmax h5 hj

/-- An effect of a run comes from a successful `runScript`. -/
theorem runEffects_mem {env : Env} {s : SessionState} {inp : RunInput}
    {ef : Effect} (hef : ef ∈ runEffects env s inp) :
    ∃ r, runScript env s inp = Except.ok r ∧ ef ∈ r.2 := by
  unfold runEffects at hef
  split at hef
  next r heq => exact ⟨r, heq, hef⟩
  next e heq => cases hef

/-- A successful run is one of the two pages, or the empty third branch. -/
theorem runScript_pages (env : Env) (s : SessionState) (inp : RunInput)
    (r : SessionState × List Effect) (h : runScript env s inp = Except.ok r) :
    (inp.page = "Image Classifier" ∧ classifierPage env s inp = Except.ok r) ∨
    (inp.page = "Connect to Us" ∧ connectPage env s inp = Except.ok r) ∨
    (¬inp.page = "Image Classifier" ∧ ¬inp.page = "Connect to Us" ∧
      r.2 = []) := by
  by_cases h1 : inp.page = "Image Classifier"
  · rw [runScript, if_pos h1] at h
    exact Or.inl ⟨h1, h⟩
  · rw [runScript, if_neg h1] at h
    by_cases h2 : inp.page = "Connect to Us"
    · rw [if_pos h2] at h
      exact Or.inr (Or.inl ⟨h2, h⟩)
    · rw [if_neg h2] at h
      cases h
      exact Or.inr (Or.inr ⟨h1, h2, rfl⟩)

/-- Claim C3, amended: Every line appended to `user_comments.txt` is
`"{now}: {comment}\n"` and contains the run's timestamp; every line
appended to `feedback.txt` is `"Like for {new_filename}\n"` or
`"Dislike for {new_filename}\n"` — the renamed filename, with no
timestamp included. -/
theorem C3_appended_lines (env : Env) (s : SessionState) (inp : RunInput) :
    (∀ l, Effect.appendFile "user_comments.txt" l ∈ runEffects env s inp →
      l = inp.now ++ ": " ++ inp.comment ++ "\n" ∧
      strContainsB l inp.now = true) ∧
    (∀ l, Effect.appendFile "feedback.txt" l ∈ runEffects env s inp →
      ∃ nf, s.new_filename = some nf ∧
        (l = "Like for " ++ nf ++ "\n" ∨ l = "Dislike for " ++ nf ++ "\n")) := by
  constructor
  · intro l hl
    obtain ⟨r, hrun, hmem⟩ := runEffects_mem hl
    rcases runScript_pages env s inp r hrun with ⟨_, hcp⟩ | ⟨_, hcp⟩ | ⟨_, _, hnil⟩
    · rcases classifierPage_mem hcp _ hmem with h | h
      · simp at h
      · simp [isClassifierEffect] at h
    · rcases connectPage_mem hcp _ hmem with
        h | h | h | h | h | h | h | ⟨hsc, h⟩ | ⟨nf, hnf, h | h | h | ⟨_, h⟩ | ⟨_, h⟩⟩
      · simp at h
      · simp at h
      · simp at h
      · simp at h
      · simp at h
      · simp at h
      · simp at h
      · simp only [Effect.appendFile.injEq, true_and] at h
        refine ⟨h, ?_⟩
        rw [h]
        have hsplit : inp.now ++ ": " ++ inp.comment ++ "\n" =
            inp.now ++ (": " ++ (inp.comment ++ "\n")) := by
          simp [String.append_assoc]
        rw [hsplit]
        exact strContainsB_left _ _
      · simp at h
      · simp at h
      · simp at h
      · simp at h
      · simp at h
    · rw [hnil] at hmem
      cases hmem
  · intro l hl
    obtain ⟨r, hrun, hmem⟩ := runEffects_mem hl
    rcases runScript_pages env s inp r hrun with ⟨_, hcp⟩ | ⟨_, hcp⟩ | ⟨_, _, hnil⟩
    · rcases classifierPage_mem hcp _ hmem with h | h
      · simp at h
      · simp [isClassifierEffect] at h
    · rcases connectPage_mem hcp _ hmem with
        h | h | h | h | h | h | h | ⟨hsc, h⟩ | ⟨nf, hnf, h | h | h | ⟨_, h⟩ | ⟨_, h⟩⟩
      · simp at h
      · simp at h
      · simp at h
      · simp at h
      · simp at h
      · simp at h
      · simp at h
      · simp at h
      · simp at h
      · simp at h
      · simp at h
      · simp only [Effect.appendFile.injEq, true_and] at h
        exact ⟨nf, hnf, Or.inl h⟩
      · simp only [Effect.appendFile.injEq, true_and] at h
        exact ⟨nf, hnf, Or.inr h⟩
    · rw [hnil] at hmem
      cases hmem

theorem C3_appended_lines_witness :
    ("2025-10-12 09:00:00" ++ ": " ++ "hi" ++ "\n" =
      inpComment.now ++ ": " ++ inpComment.comment ++ "\n") ∧
    strContainsB ("2025-10-12 09:00:00" ++ ": " ++ "hi" ++ "\n")
      inpComment.now = true :=
  (C3_appended_lines envEx sEx inpComment).1
    ("2025-10-12 09:00:00" ++ ": " ++ "hi" ++ "\n") (by decide)

/-- Claim C3, counterexample: The Like button appends
`"Like for goldfish.jpeg\n"` to `feedback.txt`: the line does not
contain the run's timestamp — indeed it contains no digit at all, hence
no timestamp in any textual form. -/
theorem C3_counterexample :
    Effect.appendFile "feedback.txt" "Like for goldfish.jpeg\n"
      ∈ runEffects envEx sClassified inpLike ∧
    strContainsB "Like for goldfish.jpeg\n" inpLike.now = false ∧
    hasDigit "Like for goldfish.jpeg\n" = false :=
  ⟨by decide, by decide, by decide⟩

/-- Claim C8: One rerun renders exactly one of the two views: plots and
the download button appear only when the sidebar selects
"Image Classifier", file writes happen only under "Connect to Us", and
the two page selections are mutually exclusive. -/
theorem C8_pages_exclusive (env : Env) (s : SessionState) (inp : RunInput) :
    (∀ ef ∈ runEffects env s inp, isClassifierEffect ef = true →
      inp.page = "Image Classifier") ∧
    (∀ ef ∈ runEffects env s inp, isFileWrite ef = true →
      inp.page = "Connect to Us") ∧
    ¬(inp.page = "Image Classifier" ∧ inp.page = "Connect to Us") := by
  refine ⟨?_, ?_, ?_⟩
  · intro ef hef hcl
    obtain ⟨r, hrun, hmem⟩ := runEffects_mem hef
    rcases runScript_pages env s inp r hrun with ⟨hp, _⟩ | ⟨hp, hcp⟩ | ⟨_, _, hnil⟩
    · exact hp
    · exfalso
      rcases connectPage_mem hcp _ hmem with
        h | h | h | h | h | h | h | ⟨_, h⟩ | ⟨nf, _, h | h | h | ⟨_, h⟩ | ⟨_, h⟩⟩ <;>
        (subst h; simp [isClassifierEffect] at hcl)
    · rw [hnil] at hmem
      cases hmem
  · intro ef hef hw
    obtain ⟨r, hrun, hmem⟩ := runEffects_mem hef
    rcases runScript_pages env s inp r hrun with ⟨hp, hcp⟩ | ⟨hp, _⟩ | ⟨_, _, hnil⟩
    · exfalso
      rcases classifierPage_mem hcp _ hmem with h | h
      · subst h; simp [isFileWrite] at hw
      · cases ef <;> simp_all [isClassifierEffect, isFileWrite]
    · exact hp
    · rw [hnil] at hmem
      cases hmem
  · rintro ⟨h1, h2⟩
    rw [h1] at h2
    exact absurd h2 (by decide)

theorem C8_pages_exclusive_witness : inpUpload.page = "Image Classifier" :=
  (C8_pages_exclusive envEx sEx inpUpload).1
    (Effect.pyplotImage (Image.mk 7 "JPEG")) (by decide) rfl

/-- Claim C9: `feedback.txt` is written only when a prior classification
left `new_filename` in the session state; without it the Like/Dislike
buttons are not even rendered and `feedback.txt` is never written. -/
theorem C9_feedback_requires_classification (env : Env) (s : SessionState)
    (inp : RunInput) :
    (∀ l, Effect.appendFile "feedback.txt" l ∈ runEffects env s inp →
      s.new_filename.isSome = true) ∧
    (s.new_filename = none →
      (∀ l, Effect.appendFile "feedback.txt" l ∉ runEffects env s inp) ∧
      Effect.button "👍 Like" ∉ runEffects env s inp ∧
      Effect.button "👎 Dislike" ∉ runEffects env s inp) := by
  have hbtn : ∀ lbl, Effect.button lbl ∈ runEffects env s inp →
      lbl ≠ "Submit Comment" → s.new_filename.isSome = true := by
    intro lbl hef hlbl
    obtain ⟨r, hrun, hmem⟩ := runEffects_mem hef
    rcases runScript_pages env s inp r hrun with ⟨_, hcp⟩ | ⟨_, hcp⟩ | ⟨_, _, hnil⟩
    · rcases classifierPage_mem hcp _ hmem with h | h
      · simp at h
      · simp [isClassifierEffect] at h
    · rcases connectPage_mem hcp _ hmem with
        h | h | h | h | h | h | h | ⟨_, h⟩ | ⟨nf, hnf, h | h | h | ⟨_, h⟩ | ⟨_, h⟩⟩
      · simp at h
      · simp at h
      · simp at h
      · simp at h
      · simp at h
      · simp only [Effect.button.injEq] at h
        exact absurd h hlbl
      · simp at h
      · simp at h
      · simp [hnf]
      · simp [hnf]
      · simp at h
      · simp at h
      · simp at h
    · rw [hnil] at hmem
      cases hmem
  have happ : ∀ l, Effect.appendFile "feedback.txt" l ∈ runEffects env s inp →
      s.new_filename.isSome = true := by
    intro l hl
    obtain ⟨r, hrun, hmem⟩ := runEffects_mem hl
    rcases runScript_pages env s inp r hrun with ⟨_, hcp⟩ | ⟨_, hcp⟩ | ⟨_, _, hnil⟩
    · rcases classifierPage_mem hcp _ hmem with h | h
      · simp at h
      · simp [isClassifierEffect] at h
    · rcases connectPage_mem hcp _ hmem with
        h | h | h | h | h | h | h | ⟨_, h⟩ | ⟨nf, hnf, h | h | h | ⟨_, h⟩ | ⟨_, h⟩⟩
      · simp at h
      · simp at h
      · simp at h
      · simp at h
      · simp at h
      · simp at h
      · simp at h
      · simp at h
      · simp at h
      · simp at h
      · simp at h
      · simp [hnf]
      · simp [hnf]
    · rw [hnil] at hmem
      cases hmem
  refine ⟨happ, ?_⟩
  intro hnone
  refine ⟨fun l hl => ?_, fun hb => ?_, fun hb => ?_⟩
  · have := happ l hl
    rw [hnone] at this
    cases this
  · have := hbtn "👍 Like" hb (by decide)
    rw [hnone] at this
    cases this
  · have := hbtn "👎 Dislike" hb (by decide)
    rw [hnone] at this
    cases this

theorem C9_feedback_requires_classification_witness :
    Effect.appendFile "feedback.txt" "Like for goldfish.jpeg\n"
      ∉ runEffects envEx sEx inpLike :=
  ((C9_feedback_requires_classification envEx sEx inpLike).2 rfl).1
    "Like for goldfish.jpeg\n"

/-- Claim C10, amended: A Submit click performs exactly one append to
`user_comments.txt`, the single string `"{now}: {comment}\n"`, with no
validation: an empty comment is accepted.  The write adds exactly
`newlines(now) + newlines(comment) + 1` lines to the file, i.e. one
line exactly when the timestamp and comment contain no newline — a
multi-line comment adds more than one line. -/
theorem C10_submit_always_writes (env : Env) (s : SessionState)
    (inp : RunInput)
    (hpage : inp.page = "Connect to Us")
    (hsub : inp.submitClicked = true)
    (hlc : inp.likeClicked = false)
    (hdc : inp.dislikeClicked = false)
    (hw : env.fsAppend "user_comments.txt"
      (inp.now ++ ": " ++ inp.comment ++ "\n") = Except.ok ()) :
    appendedTo "user_comments.txt" (runEffects env s inp) =
      [inp.now ++ ": " ++ inp.comment ++ "\n"] ∧
    linesAppendedTo "user_comments.txt" (runEffects env s inp) =
      newlineCount inp.now + newlineCount inp.comment + 1 := by
  have hne : ¬inp.page = "Image Classifier" := by rw [hpage]; decide
  have happ : appendedTo "user_comments.txt" (runEffects env s inp) =
      [inp.now ++ ": " ++ inp.comment ++ "\n"] := by
    cases hnf : s.new_filename with
    | none =>
      simp [runEffects, runScript, hne, hpage, connectPage, feedbackSection,
        commentStep, hnf, hlc, hdc, hsub, hw, appendedTo]
    | some nf =>
      simp [runEffects, runScript, hne, hpage, connectPage, feedbackSection,
        feedbackStep, commentStep, hnf, hlc, hdc, hsub, hw, appendedTo]
  refine ⟨happ, ?_⟩
  rw [linesAppendedTo, happ]
  have h1 : newlineCount ": " = 0 := by decide
  have h2 : newlineCount "\n" = 1 := by decide
  simp [newlineCount_append, h1, h2]

theorem C10_submit_always_writes_witness :
    appendedTo "user_comments.txt" (runEffects envEx sEx inpEmptyComment) =
      [inpEmptyComment.now ++ ": " ++ inpEmptyComment.comment ++ "\n"] ∧
    linesAppendedTo "user_comments.txt" (runEffects envEx sEx inpEmptyComment) =
      newlineCount inpEmptyComment.now + newlineCount inpEmptyComment.comment
        + 1 :=
  C10_submit_always_writes envEx sEx inpEmptyComment rfl rfl rfl rfl rfl

/-- Claim C10, counterexample: Submitting the two-line comment `"a\nb"`
performs one append whose text spans two lines of `user_comments.txt`,
not exactly one line. -/
theorem C10_counterexample :
    inpMultiline.submitClicked = true ∧
    (appendedTo "user_comments.txt"
      (runEffects envEx sEx inpMultiline)).length = 1 ∧
    linesAppendedTo "user_comments.txt"
      (runEffects envEx sEx inpMultiline) = 2 :=
  ⟨rfl, by decide, by decide⟩

theorem C6_attribution_target_witness :
    (Effect.pyplotAttr
      (envEx.igAttr 0 (envEx.preprocess (Image.mk 7 "JPEG"))
        ((makePrediction (envEx.softmaxOut 0
           (envEx.preprocess (Image.mk 7 "JPEG")))).2.headD 0))
      ∈ runEffects envEx sEx inpUpload) ∧
    (∀ j, j < (envEx.softmaxOut 0 (envEx.preprocess (Image.mk 7 "JPEG"))).length →
      (envEx.softmaxOut 0 (envEx.preprocess (Image.mk 7 "JPEG"))).getD j 0 ≤
        (envEx.softmaxOut 0 (envEx.preprocess (Image.mk 7 "JPEG"))).getD
          ((makePrediction (envEx.softmaxOut 0
             (envEx.preprocess (Image.mk 7 "JPEG")))).2.headD 0) 0) :=
  C6_attribution_target envEx sEx inpUpload [9, 9] (Image.mk 7 "JPEG") 0
    rfl rfl rfl rfl (by decide)

end ImageClassify
